import Mathlib

/-!
Verification of the call-start simulator of the CallMonitor repository
(`src/tools/simulate_start_call.py`) and permission-matrix builder
(`src/tools/build_permission_matrix.py`) against its specification.

The Python module holds six in-memory mock tables (the `organizations`
dict and the `org_members`, `systems`, `calls`, `ai_runs`, `audit_logs`
lists).  We embed that mutable state as a `DB` record threaded through
`simulate_start_call`.  The nondeterministic environment values the code
draws (`uuid.uuid4()` hex strings and `datetime.utcnow()` timestamps) are
modelled by an abstract `supply : Nat → String` indexed by draw order.
A Python `KeyError` (raised by the subscript `input[organization_id]`
when the key is absent) is modelled by the `Except.error` branch of the
result.
-/

namespace CallMonitor

/-- Row of the `organizations` mock table: `{id, name, plan, tool_id, created_by}`.
`tool_id` is read with `.get` in the source, so it is optional here. -/
structure Organization where
  id : String
  name : String
  plan : String
  tool_id : Option String
  created_by : String
deriving Repr, DecidableEq

/-- Row of the `org_members` mock table: `{id, organization_id, user_id, role}`. -/
structure OrgMember where
  id : String
  organization_id : String
  user_id : String
  role : String
deriving Repr, DecidableEq

/-- Row of the `systems` mock table: `{id, key}`. -/
structure SystemRow where
  id : String
  key : String
deriving Repr, DecidableEq

/-- Row of the `calls` mock table, as built by `simulate_start_call`. -/
structure CallRow where
  id : String
  organization_id : String
  system_id : String
  status : String
  started_at : Option String
  ended_at : Option String
  created_by : String
  call_sid : Option String
deriving Repr, DecidableEq

/-- Row of the `ai_runs` mock table, as built by `simulate_start_call`. -/
structure AiRunRow where
  id : String
  call_id : String
  system_id : String
  model : String
  status : String
  started_at : Option String
  completed_at : Option String
  output : Option String
deriving Repr, DecidableEq

/-- The boolean feature toggles the source reads with dict get from the
modulations value: record and transcribe (absent keys are falsy). -/
structure Modulations where
  record : Bool
  transcribe : Bool
deriving Repr, DecidableEq

/-- The `after` (or `before`) snapshot of an audit entry.  The source
builds exactly two snapshot shapes: the recording-intent payload
`{tool_id, requested_at}` and the final create payload
`{**call_row, config: mods, call_sid}`. -/
inductive AuditAfter where
  | intentAfter (tool_id : Option String) (requested_at : String)
  | createAfter (call : CallRow) (config : Modulations) (call_sid : String)
deriving Repr, DecidableEq

/-- Row of the `audit_logs` mock table. -/
structure AuditRow where
  id : String
  organization_id : String
  user_id : String
  system_id : String
  resource_type : String
  resource_id : String
  action : String
  before : Option AuditAfter
  after : Option AuditAfter
  created_at : String
deriving Repr, DecidableEq

/-- The module-level mutable state: the six mock tables.  `organizations`
is a Python dict keyed by id, embedded as an association list. -/
structure DB where
  organizations : List (String × Organization)
  org_members : List OrgMember
  systems : List SystemRow
  calls : List CallRow
  ai_runs : List AiRunRow
  audit_logs : List AuditRow
deriving Repr, DecidableEq

/-- Python `dict.get`: look a key up in an association list. -/
def lookup_dict {α : Type} (d : List (String × α)) (k : String) : Option α :=
  (d.find? (fun p => p.1 == k)).map (fun p => p.2)

/-- The dict comprehension mapping each system key to its id, followed by
dict get: on duplicate keys the later entry wins, as in Python. -/
def system_lookup (systems : List SystemRow) (k : String) : Option String :=
  systems.foldl (fun acc s => if s.key == k then some s.id else acc) none

/-- Call input: the source subscripts `input[organization_id]` directly
(raising `KeyError` when absent, hence `Option` here); `modulations` is
read with dict get and an empty-dict default, so a missing key is the
all-false record. -/
structure CallInput where
  organization_id : Option String
  modulations : Modulations
deriving Repr, DecidableEq

/-- The dict returned by `simulate_start_call`: `success`, the `call_id`
key (present only on success), and the accumulated `(code, message)`
error pairs. -/
structure StartCallResult where
  success : Bool
  call_id : Option String
  errors : List (String × String)
deriving Repr, DecidableEq

/-- Step 5 of the workflow: if `transcribe` was requested, require the
`system-ai` system (else record the soft failure `AI_SYSTEM_MISSING`),
otherwise append a queued `ai_runs` row.  Returns the errors produced,
the updated state, and the next fresh-supply index. -/
def transcribe_step (db : DB) (supply : Nat → String) (call_id : String)
    (transcribe : Bool) (sys_ai : Option String) :
    List (String × String) × DB × Nat :=
  if transcribe then
    match sys_ai with
    | none => ([("AI_SYSTEM_MISSING", "AI system not registered")], db, 3)
    | some aiid =>
        ([], { db with ai_runs := db.ai_runs ++
          [{ id := supply 3, call_id := call_id, system_id := aiid,
             model := "assemblyai-v1", status := "queued", started_at := none,
             completed_at := none, output := none }] }, 4)
  else ([], db, 3)

/-- Step 6 of the workflow: if `record` was requested, append the
audit-log intent entry (no recordings row exists to create).  Returns the
updated state and the next fresh-supply index. -/
def record_step (db : DB) (supply : Nat → String) (n : Nat) (call_id : String)
    (actor : String) (org : Organization) (cpid : String) (record : Bool) :
    DB × Nat :=
  if record then
    ({ db with audit_logs := db.audit_logs ++
      [{ id := supply n, organization_id := org.id, user_id := actor,
         system_id := cpid, resource_type := "calls", resource_id := call_id,
         action := "intent:recording_requested", before := none,
         after := some (.intentAfter org.tool_id (supply (n + 1))),
         created_at := supply (n + 2) }] }, n + 3)
  else (db, n)

/-- Steps 3-7 of the workflow, reached once every hard precondition has
passed: insert the pending call row, simulate provider acceptance (the
row is mutated in place to `in-progress` with a `SW_`-prefixed call sid
and a start timestamp, so the table holds the mutated row), run the
transcribe and record steps, and write the final `create` audit entry.
The `system-ai` resolution is the pure dict lookup the source performs in
its step 2. -/
def start_call_effects (db : DB) (supply : Nat → String) (input : CallInput)
    (actor : String) (org : Organization) (cpid : String) :
    StartCallResult × DB :=
  let sys_ai := system_lookup db.systems "system-ai"
  let call_id := supply 0
  let call_row : CallRow :=
    { id := call_id, organization_id := org.id, system_id := cpid,
      status := "pending", started_at := none, ended_at := none,
      created_by := actor, call_sid := none }
  let call_sid := "SW_" ++ supply 1
  let call_row : CallRow :=
    { call_row with
      call_sid := some call_sid, status := "in-progress",
      started_at := some (supply 2) }
  let db1 : DB := { db with calls := db.calls ++ [call_row] }
  let mods := input.modulations
  let t := transcribe_step db1 supply call_id mods.transcribe sys_ai
  let errors := t.1
  let db2 := t.2.1
  let r := record_step db2 supply t.2.2 call_id actor org cpid mods.record
  let db3 := r.1
  let n := r.2
  let audit : AuditRow :=
    { id := supply n, organization_id := org.id, user_id := actor,
      system_id := cpid, resource_type := "calls", resource_id := call_id,
      action := "create", before := none,
      after := some (.createAfter call_row mods call_sid),
      created_at := supply (n + 1) }
  ({ success := true, call_id := some call_id, errors := errors },
   { db3 with audit_logs := db3.audit_logs ++ [audit] })

/-- The `simulate_start_call(input, actor)` function.  The four hard
preconditions are checked in order with short-circuit returns; the
`Except.error` branch models the `KeyError` raised by the
`organization_id` subscript when the key is absent. -/
def simulate_start_call (db : DB) (supply : Nat → String) (input : CallInput)
    (actor : String) : Except String (StartCallResult × DB) :=
  if actor = "" then
    .ok ({ success := false, call_id := none,
           errors := [("AUTH_REQUIRED", "Unauthenticated")] }, db)
  else
    match input.organization_id with
    | none => .error "KeyError: organization_id"
    | some oid =>
      match lookup_dict db.organizations oid with
      | none =>
          .ok ({ success := false, call_id := none,
                 errors := [("CALL_START_ORG_NOT_FOUND", "Organization not found")] }, db)
      | some org =>
        match db.org_members.find?
            (fun m => m.organization_id == org.id && m.user_id == actor) with
        | none =>
            .ok ({ success := false, call_id := none,
                   errors := [("AUTH_ORG_MISMATCH", "Actor not authorized for organization")] }, db)
        | some _member =>
          match system_lookup db.systems "system-cpid" with
          | none =>
              .ok ({ success := false, call_id := none,
                     errors := [("CALL_START_SYS_MISSING", "Control system not registered")] }, db)
          | some cpid => .ok (start_call_effects db supply input actor org cpid)

/-- The seeded organization `org-1`. -/
def org1 : Organization :=
  { id := "org-1", name := "ACME", plan := "paid", tool_id := some "tool-1",
    created_by := "user-1" }

/-- The seeded membership `m-1` linking `user-1` to `org-1`. -/
def member1 : OrgMember :=
  { id := "m-1", organization_id := "org-1", user_id := "user-1", role := "admin" }

/-- The seeded mock tables of the module: organization `org-1`, member
`user-1`, systems `system-cpid` and `system-ai`, empty calls, ai_runs
and audit_logs. -/
def initial_db : DB :=
  { organizations := [("org-1", org1)],
    org_members := [member1],
    systems := [{ id := "sys-cpid", key := "system-cpid" },
                { id := "sys-ai", key := "system-ai" }],
    calls := [], ai_runs := [], audit_logs := [] }

/-- A concrete injective fresh-value supply for witnesses. -/
def supply0 : Nat → String := fun n => Nat.repr n

/-!
Embedding of `src/tools/build_permission_matrix.py`.  The script parses
`ARCH_DOCS/Schema.txt` with a regex into a dict `tables : name → columns`
and reads the hand-authored permission dict `tool : name → op → columns`.
We embed everything downstream of the parse — the matrix build, the
required-tables step and the validation loop — and quantify over every
possible value of `tables` and `tool`, which covers every schema text and
permission-table input the parse could produce.
-/

/-- The hand-authored per-table permissions, as read by
`perms.get(op, [])` for the four CRUD ops (a missing op is `[]`). -/
structure PermSpec where
  GET : List String
  POST : List String
  PUT : List String
  DELETE : List String
deriving Repr, DecidableEq

/-- One value of the `updated` matrix: the four filtered column lists.
The constant `allowed_modules` dict the script also stores is skipped by
its validation loop and carries no column names, so it is kept out of the
embedded entry. -/
structure PermEntry where
  GET : List String
  POST : List String
  PUT : List String
  DELETE : List String
deriving Repr, DecidableEq

/-- The list comprehension `[c for c in cols if c in schema_cols]`. -/
def filter_cols (cols : List String) (schema_cols : List String) : List String :=
  cols.filter (fun c => schema_cols.contains c)

/-- One iteration of the first loop of the script: skip a table unknown
to the schema, else store its four filtered column lists. -/
def build_step (tables : List (String × List String))
    (acc : List (String × PermEntry)) (p : String × PermSpec) :
    List (String × PermEntry) :=
  match lookup_dict tables p.1 with
  | none => acc
  | some schema_cols =>
      acc ++ [(p.1,
        { GET := filter_cols p.2.GET schema_cols,
          POST := filter_cols p.2.POST schema_cols,
          PUT := filter_cols p.2.PUT schema_cols,
          DELETE := filter_cols p.2.DELETE schema_cols })]

/-- The first loop of the script over all of `tool`. -/
def build_updated (tool : List (String × PermSpec))
    (tables : List (String × List String)) : List (String × PermEntry) :=
  tool.foldl (build_step tables) []

/-- One iteration of the second loop: when the required table is missing
from `updated` but present in the schema, add an entry whose `GET` list
is all schema columns of that table. -/
def required_step (tables : List (String × List String))
    (acc : List (String × PermEntry)) (req : String) :
    List (String × PermEntry) :=
  if (lookup_dict acc req).isSome then acc
  else
    match lookup_dict tables req with
    | none => acc
    | some cols =>
        acc ++ [(req, { GET := cols, POST := [], PUT := [], DELETE := [] })]

/-- The second loop: ensure `calls` and `ai_runs` are present. -/
def ensure_required (updated : List (String × PermEntry))
    (tables : List (String × List String)) : List (String × PermEntry) :=
  ["calls", "ai_runs"].foldl (required_step tables) updated

/-- The messages one op of one entry contributes to the validation loop:
one `includes unknown column` line per column absent from the schema. -/
def op_errors (tbl : String) (op : String) (cols : List String)
    (tcols : List String) : List String :=
  (cols.filter (fun c => !(tcols.contains c))).map
    (fun c => tbl ++ "." ++ op ++ " includes unknown column " ++ c)

/-- One iteration of the validation loop: for every op other than
`allowed_modules`, report each column not in `tables.get(tbl, [])`. -/
def validate_step (tables : List (String × List String))
    (acc : List String) (p : String × PermEntry) : List String :=
  let tcols := (lookup_dict tables p.1).getD []
  acc ++ op_errors p.1 "GET" p.2.GET tcols
      ++ op_errors p.1 "POST" p.2.POST tcols
      ++ op_errors p.1 "PUT" p.2.PUT tcols
      ++ op_errors p.1 "DELETE" p.2.DELETE tcols

/-- The validation loop over every entry of the updated matrix. -/
def validation_errors (updated : List (String × PermEntry))
    (tables : List (String × List String)) : List String :=
  updated.foldl (validate_step tables) []

/-- The emitted output: the matrix and its validation errors. -/
def build_permission_matrix (tool : List (String × PermSpec))
    (tables : List (String × List String)) :
    List (String × PermEntry) × List String :=
  let updated := ensure_required (build_updated tool tables) tables
  (updated, validation_errors updated tables)

/-- Every column of every op list of an entry occurs among the schema
columns `tables.get(tbl, [])` of the table the entry names. -/
def entry_ok (tables : List (String × List String))
    (p : String × PermEntry) : Prop :=
  ∀ c, (c ∈ p.2.GET ∨ c ∈ p.2.POST ∨ c ∈ p.2.PUT ∨ c ∈ p.2.DELETE) →
    c ∈ (lookup_dict tables p.1).getD []

/-- The call row every successful run appends: `in-progress`, with the
synthetic provider sid and the start timestamp attached in place. -/
def new_call_row (supply : Nat → String) (actor : String) (org : Organization)
    (cpid : String) : CallRow :=
  { id := supply 0, organization_id := org.id, system_id := cpid,
    status := "in-progress", started_at := some (supply 2), ended_at := none,
    created_by := actor, call_sid := some ("SW_" ++ supply 1) }

/-- The one audit entry of the final create step, with its fresh draws
starting at index `n`. -/
def create_audit (supply : Nat → String) (actor : String) (org : Organization)
    (cpid : String) (mods : Modulations) (n : Nat) : AuditRow :=
  { id := supply n, organization_id := org.id, user_id := actor,
    system_id := cpid, resource_type := "calls", resource_id := supply 0,
    action := "create", before := none,
    after := some (.createAfter (new_call_row supply actor org cpid) mods
      ("SW_" ++ supply 1)),
    created_at := supply (n + 1) }

/-- The recording-intent audit entry, with its fresh draws starting at
index `n`. -/
def intent_audit (supply : Nat → String) (actor : String) (org : Organization)
    (cpid : String) (n : Nat) : AuditRow :=
  { id := supply n, organization_id := org.id, user_id := actor,
    system_id := cpid, resource_type := "calls", resource_id := supply 0,
    action := "intent:recording_requested", before := none,
    after := some (.intentAfter org.tool_id (supply (n + 1))),
    created_at := supply (n + 2) }

/-- The queued ai_runs row of the transcribe step. -/
def new_ai_run (supply : Nat → String) (aiid : String) : AiRunRow :=
  { id := supply 3, call_id := supply 0, system_id := aiid,
    model := "assemblyai-v1", status := "queued", started_at := none,
    completed_at := none, output := none }

/-- Modelled from the spec, its precondition list (sections 4.1 and 7): the
first of the four hard preconditions, checked in the stated order, that
fails, with its `(code, message)` pair; `none` when none fails or when the
missing `organization_id` key raises instead of returning. -/
def first_failing_error (db : DB) (input : CallInput) (actor : String) :
    Option (String × String) :=
  if actor = "" then some ("AUTH_REQUIRED", "Unauthenticated")
  else
    match input.organization_id with
    | none => none
    | some oid =>
      match lookup_dict db.organizations oid with
      | none => some ("CALL_START_ORG_NOT_FOUND", "Organization not found")
      | some org =>
        match db.org_members.find?
            (fun m => m.organization_id == org.id && m.user_id == actor) with
        | none => some ("AUTH_ORG_MISMATCH", "Actor not authorized for organization")
        | some _ =>
          match system_lookup db.systems "system-cpid" with
          | none => some ("CALL_START_SYS_MISSING", "Control system not registered")
          | some _ => none

/-- The seeded state with the `system-ai` registration removed. -/
def db_no_ai : DB :=
  { initial_db with systems := [{ id := "sys-cpid", key := "system-cpid" }] }

/-- The state after running the seeded module with
`modulations = {transcribe: true}` under the concrete supply. -/
def transcribe_run_state : DB :=
  (((simulate_start_call initial_db supply0
      ⟨some "org-1", ⟨false, true⟩⟩ "user-1").toOption).getD
    ({ success := false, call_id := none, errors := [] }, initial_db)).2

/-- A concrete permission table for evaluation: the `email` column of
`users` is stale (absent from the schema). -/
def tool0 : List (String × PermSpec) :=
  [("users", { GET := ["id", "email"], POST := ["id"], PUT := [], DELETE := [] }),
   ("ghost", { GET := ["x"], POST := [], PUT := [], DELETE := [] })]

/-- A concrete parsed schema for evaluation. -/
def tables0 : List (String × List String) :=
  [("users", ["id", "name"]), ("calls", ["id", "status"])]

/-- The membership generator expression of the source succeeds exactly
when a row links the actor to the organization. -/
theorem member_find_isSome (members : List OrgMember) (actor orgid : String)
    (hmem : ∃ m ∈ members, m.organization_id = orgid ∧ m.user_id = actor) :
    (members.find?
      (fun m => m.organization_id == orgid && m.user_id == actor)).isSome := by
  obtain ⟨m, hm, h1, h2⟩ := hmem
  exact List.find?_isSome.mpr ⟨m, hm, by simp [h1, h2]⟩

/-- The result record built once the hard preconditions pass always
carries `success := true`, whatever soft errors were collected. -/
theorem effects_success (db : DB) (supply : Nat → String) (input : CallInput)
    (actor : String) (org : Organization) (cpid : String) :
    (start_call_effects db supply input actor org cpid).1.success = true := rfl

/-- When every hard precondition holds, `simulate_start_call` runs its
effect steps on the resolved organization and control system. -/
theorem startCall_ok_eval (db : DB) (supply : Nat → String) (input : CallInput)
    (actor : String) (org : Organization) (cpid : String) (oid : String)
    (ha : ¬ actor = "")
    (hoid : input.organization_id = some oid)
    (horg : lookup_dict db.organizations oid = some org)
    (hmem : (db.org_members.find?
      (fun m => m.organization_id == org.id && m.user_id == actor)).isSome)
    (hsys : system_lookup db.systems "system-cpid" = some cpid) :
    simulate_start_call db supply input actor
      = .ok (start_call_effects db supply input actor org cpid) := by
  obtain ⟨m, hm⟩ := Option.isSome_iff_exists.mp hmem
  simp [simulate_start_call, ha, hoid, horg, hm, hsys]

/-- Effect evaluation with neither modulation requested: one call row and
one create audit entry are appended. -/
theorem effects_eval_plain (db : DB) (supply : Nat → String)
    (oidv : Option String) (actor : String) (org : Organization) (cpid : String) :
    start_call_effects db supply ⟨oidv, ⟨false, false⟩⟩ actor org cpid =
    ({ success := true, call_id := some (supply 0), errors := [] },
     { db with
       calls := db.calls ++ [new_call_row supply actor org cpid],
       audit_logs := db.audit_logs ++
         [create_audit supply actor org cpid ⟨false, false⟩ 3] }) := rfl

/-- Effect evaluation with `transcribe` requested and `system-ai`
registered: a queued ai_runs row is appended as well. -/
theorem effects_eval_transcribe (db : DB) (supply : Nat → String)
    (oidv : Option String) (actor : String) (org : Organization) (cpid : String)
    (aiid : String) (hai : system_lookup db.systems "system-ai" = some aiid) :
    start_call_effects db supply ⟨oidv, ⟨false, true⟩⟩ actor org cpid =
    ({ success := true, call_id := some (supply 0), errors := [] },
     { db with
       calls := db.calls ++ [new_call_row supply actor org cpid],
       ai_runs := db.ai_runs ++ [new_ai_run supply aiid],
       audit_logs := db.audit_logs ++
         [create_audit supply actor org cpid ⟨false, true⟩ 4] }) := by
  simp [start_call_effects, transcribe_step, record_step, hai,
    new_call_row, new_ai_run, create_audit]

/-- Effect evaluation with `transcribe` requested but no `system-ai`
registered: the soft failure is collected and no ai_runs row appended. -/
theorem effects_eval_transcribe_noai (db : DB) (supply : Nat → String)
    (oidv : Option String) (actor : String) (org : Organization) (cpid : String)
    (hai : system_lookup db.systems "system-ai" = none) :
    start_call_effects db supply ⟨oidv, ⟨false, true⟩⟩ actor org cpid =
    ({ success := true, call_id := some (supply 0),
       errors := [("AI_SYSTEM_MISSING", "AI system not registered")] },
     { db with
       calls := db.calls ++ [new_call_row supply actor org cpid],
       audit_logs := db.audit_logs ++
         [create_audit supply actor org cpid ⟨false, true⟩ 3] }) := by
  simp [start_call_effects, transcribe_step, record_step, hai,
    new_call_row, create_audit]

/-- Effect evaluation with `record` requested alone: the intent entry is
appended, then the create entry. -/
theorem effects_eval_record (db : DB) (supply : Nat → String)
    (oidv : Option String) (actor : String) (org : Organization) (cpid : String) :
    start_call_effects db supply ⟨oidv, ⟨true, false⟩⟩ actor org cpid =
    ({ success := true, call_id := some (supply 0), errors := [] },
     { db with
       calls := db.calls ++ [new_call_row supply actor org cpid],
       audit_logs := db.audit_logs ++
         [intent_audit supply actor org cpid 3,
          create_audit supply actor org cpid ⟨true, false⟩ 6] }) := by
  simp [start_call_effects, transcribe_step, record_step,
    new_call_row, create_audit, intent_audit]

/-- Effect evaluation with both modulations requested and `system-ai`
registered. -/
theorem effects_eval_record_transcribe (db : DB) (supply : Nat → String)
    (oidv : Option String) (actor : String) (org : Organization) (cpid : String)
    (aiid : String) (hai : system_lookup db.systems "system-ai" = some aiid) :
    start_call_effects db supply ⟨oidv, ⟨true, true⟩⟩ actor org cpid =
    ({ success := true, call_id := some (supply 0), errors := [] },
     { db with
       calls := db.calls ++ [new_call_row supply actor org cpid],
       ai_runs := db.ai_runs ++ [new_ai_run supply aiid],
       audit_logs := db.audit_logs ++
         [intent_audit supply actor org cpid 4,
          create_audit supply actor org cpid ⟨true, true⟩ 7] }) := by
  simp [start_call_effects, transcribe_step, record_step, hai,
    new_call_row, new_ai_run, create_audit, intent_audit]

/-- Effect evaluation with both modulations requested but no `system-ai`
registered. -/
theorem effects_eval_record_transcribe_noai (db : DB) (supply : Nat → String)
    (oidv : Option String) (actor : String) (org : Organization) (cpid : String)
    (hai : system_lookup db.systems "system-ai" = none) :
    start_call_effects db supply ⟨oidv, ⟨true, true⟩⟩ actor org cpid =
    ({ success := true, call_id := some (supply 0),
       errors := [("AI_SYSTEM_MISSING", "AI system not registered")] },
     { db with
       calls := db.calls ++ [new_call_row supply actor org cpid],
       audit_logs := db.audit_logs ++
         [intent_audit supply actor org cpid 3,
          create_audit supply actor org cpid ⟨true, true⟩ 6] }) := by
  simp [start_call_effects, transcribe_step, record_step, hai,
    new_call_row, create_audit, intent_audit]

/-- C1: for every initial mock-table state containing organization
`org-1`, an OrgMember linking `user-1` to `org-1`, and a System with key
`system-cpid`, calling `simulate_start_call` with input
`{organization_id: org-1, modulations: {}}` and actor `user-1` returns
`success = true`, appends exactly one Call row whose status is
`in-progress` and whose call_sid is non-null, and appends exactly one
AuditLog entry, which has action `create`. -/
theorem C1_happy_path (st : DB) (supply : Nat → String)
    (org : Organization) (cpid : String)
    (horg : lookup_dict st.organizations "org-1" = some org)
    (hid : org.id = "org-1")
    (hmem : ∃ m ∈ st.org_members,
      m.organization_id = "org-1" ∧ m.user_id = "user-1")
    (hsys : system_lookup st.systems "system-cpid" = some cpid) :
    ∃ res db',
      simulate_start_call st supply ⟨some "org-1", ⟨false, false⟩⟩ "user-1"
        = .ok (res, db')
      ∧ res.success = true
      ∧ (∃ c, db'.calls = st.calls ++ [c] ∧ c.status = "in-progress"
          ∧ c.call_sid.isSome = true)
      ∧ (∃ a, db'.audit_logs = st.audit_logs ++ [a] ∧ a.action = "create") := by
  have hfind := member_find_isSome st.org_members "user-1" "org-1" hmem
  rw [← hid] at hfind
  have h := startCall_ok_eval st supply ⟨some "org-1", ⟨false, false⟩⟩
    "user-1" org cpid "org-1" (by decide) rfl horg hfind hsys
  rw [effects_eval_plain] at h
  exact ⟨_, _, h, rfl, ⟨_, rfl, rfl, rfl⟩, ⟨_, rfl, rfl⟩⟩

/-- Witness for C1 at the seeded module tables and a concrete supply. -/
theorem C1_happy_path_witness :
    ∃ res db',
      simulate_start_call initial_db supply0 ⟨some "org-1", ⟨false, false⟩⟩
        "user-1" = .ok (res, db')
      ∧ res.success = true
      ∧ (∃ c, db'.calls = initial_db.calls ++ [c] ∧ c.status = "in-progress"
          ∧ c.call_sid.isSome = true)
      ∧ (∃ a, db'.audit_logs = initial_db.audit_logs ++ [a]
          ∧ a.action = "create") :=
  C1_happy_path initial_db supply0 org1 "sys-cpid" rfl rfl
    ⟨member1, by simp [initial_db], rfl, rfl⟩ rfl

/-- C5: for every state, supply and input, an empty (falsy) actor makes
`simulate_start_call` return `success = false` with the single error code
`AUTH_REQUIRED` and leave the state — in particular the calls table —
untouched.  The empty string embeds the falsy Python actor (empty string
or None); the not-actor test is the very first check, before the
`organization_id` subscript. -/
theorem C5_auth_required (db : DB) (supply : Nat → String) (input : CallInput) :
    simulate_start_call db supply input "" =
      .ok ({ success := false, call_id := none,
             errors := [("AUTH_REQUIRED", "Unauthenticated")] }, db) := rfl

/-- C6: given organization `org-1` with member `user-1`, registered
systems `system-cpid` and `system-ai`, and `modulations = {transcribe:
true}`, exactly one AiRun row is appended, with status `queued` and
call_id equal to the id of the newly created Call. -/
theorem C6_transcribe_ai_run (st : DB) (supply : Nat → String)
    (org : Organization) (cpid aiid : String)
    (horg : lookup_dict st.organizations "org-1" = some org)
    (hid : org.id = "org-1")
    (hmem : ∃ m ∈ st.org_members,
      m.organization_id = "org-1" ∧ m.user_id = "user-1")
    (hsys : system_lookup st.systems "system-cpid" = some cpid)
    (hai : system_lookup st.systems "system-ai" = some aiid) :
    ∃ res db' c r,
      simulate_start_call st supply ⟨some "org-1", ⟨false, true⟩⟩ "user-1"
        = .ok (res, db')
      ∧ res.success = true
      ∧ db'.calls = st.calls ++ [c]
      ∧ db'.ai_runs = st.ai_runs ++ [r]
      ∧ r.status = "queued" ∧ r.call_id = c.id := by
  have hfind := member_find_isSome st.org_members "user-1" "org-1" hmem
  rw [← hid] at hfind
  have h := startCall_ok_eval st supply ⟨some "org-1", ⟨false, true⟩⟩
    "user-1" org cpid "org-1" (by decide) rfl horg hfind hsys
  rw [effects_eval_transcribe st supply (some "org-1") "user-1" org cpid aiid hai] at h
  exact ⟨_, _, _, _, h, rfl, rfl, rfl, rfl, rfl⟩

/-- Witness for C6 at the seeded module tables and a concrete supply. -/
theorem C6_transcribe_ai_run_witness :
    ∃ res db' c r,
      simulate_start_call initial_db supply0 ⟨some "org-1", ⟨false, true⟩⟩
        "user-1" = .ok (res, db')
      ∧ res.success = true
      ∧ db'.calls = initial_db.calls ++ [c]
      ∧ db'.ai_runs = initial_db.ai_runs ++ [r]
      ∧ r.status = "queued" ∧ r.call_id = c.id :=
  C6_transcribe_ai_run initial_db supply0 org1 "sys-cpid" "sys-ai" rfl rfl
    ⟨member1, by simp [initial_db], rfl, rfl⟩ rfl rfl

/-- C7: with `modulations = {transcribe: true}` and every hard
precondition passing but no `system-ai` registered, the call still
succeeds, the errors list carries the code `AI_SYSTEM_MISSING`, and no
AiRun row is appended. -/
theorem C7_ai_system_missing (st : DB) (supply : Nat → String)
    (org : Organization) (cpid : String)
    (horg : lookup_dict st.organizations "org-1" = some org)
    (hid : org.id = "org-1")
    (hmem : ∃ m ∈ st.org_members,
      m.organization_id = "org-1" ∧ m.user_id = "user-1")
    (hsys : system_lookup st.systems "system-cpid" = some cpid)
    (hai : system_lookup st.systems "system-ai" = none) :
    ∃ res db',
      simulate_start_call st supply ⟨some "org-1", ⟨false, true⟩⟩ "user-1"
        = .ok (res, db')
      ∧ res.success = true
      ∧ "AI_SYSTEM_MISSING" ∈ res.errors.map Prod.fst
      ∧ db'.ai_runs = st.ai_runs := by
  have hfind := member_find_isSome st.org_members "user-1" "org-1" hmem
  rw [← hid] at hfind
  have h := startCall_ok_eval st supply ⟨some "org-1", ⟨false, true⟩⟩
    "user-1" org cpid "org-1" (by decide) rfl horg hfind hsys
  rw [effects_eval_transcribe_noai st supply (some "org-1") "user-1" org cpid hai] at h
  exact ⟨_, _, h, rfl, by simp, rfl⟩

/-- Witness for C7 at the seeded tables with `system-ai` removed. -/
theorem C7_ai_system_missing_witness :
    ∃ res db',
      simulate_start_call db_no_ai supply0 ⟨some "org-1", ⟨false, true⟩⟩
        "user-1" = .ok (res, db')
      ∧ res.success = true
      ∧ "AI_SYSTEM_MISSING" ∈ res.errors.map Prod.fst
      ∧ db'.ai_runs = db_no_ai.ai_runs :=
  C7_ai_system_missing db_no_ai supply0 org1 "sys-cpid" rfl rfl
    ⟨member1, by simp [db_no_ai, initial_db], rfl, rfl⟩ rfl rfl

/-- C8: with `modulations = {record: true}` and every hard precondition
passing, the appended audit entries are exactly the
`intent:recording_requested` entry followed by the final `create` entry
— the intent sits at the earlier position — and no table other than
calls and audit_logs changes; the module has no recordings table at all,
so no Recording row is created anywhere. -/
theorem C8_record_intent (st : DB) (supply : Nat → String)
    (org : Organization) (cpid : String)
    (horg : lookup_dict st.organizations "org-1" = some org)
    (hid : org.id = "org-1")
    (hmem : ∃ m ∈ st.org_members,
      m.organization_id = "org-1" ∧ m.user_id = "user-1")
    (hsys : system_lookup st.systems "system-cpid" = some cpid) :
    ∃ res db' i a,
      simulate_start_call st supply ⟨some "org-1", ⟨true, false⟩⟩ "user-1"
        = .ok (res, db')
      ∧ res.success = true
      ∧ db'.audit_logs = st.audit_logs ++ [i, a]
      ∧ i.action = "intent:recording_requested"
      ∧ a.action = "create"
      ∧ db'.ai_runs = st.ai_runs
      ∧ db'.organizations = st.organizations
      ∧ db'.org_members = st.org_members
      ∧ db'.systems = st.systems := by
  have hfind := member_find_isSome st.org_members "user-1" "org-1" hmem
  rw [← hid] at hfind
  have h := startCall_ok_eval st supply ⟨some "org-1", ⟨true, false⟩⟩
    "user-1" org cpid "org-1" (by decide) rfl horg hfind hsys
  rw [effects_eval_record] at h
  exact ⟨_, _, _, _, h, rfl, rfl, rfl, rfl, rfl, rfl, rfl, rfl⟩

/-- Witness for C8 at the seeded module tables and a concrete supply. -/
theorem C8_record_intent_witness :
    ∃ res db' i a,
      simulate_start_call initial_db supply0 ⟨some "org-1", ⟨true, false⟩⟩
        "user-1" = .ok (res, db')
      ∧ res.success = true
      ∧ db'.audit_logs = initial_db.audit_logs ++ [i, a]
      ∧ i.action = "intent:recording_requested"
      ∧ a.action = "create"
      ∧ db'.ai_runs = initial_db.ai_runs
      ∧ db'.organizations = initial_db.organizations
      ∧ db'.org_members = initial_db.org_members
      ∧ db'.systems = initial_db.systems :=
  C8_record_intent initial_db supply0 org1 "sys-cpid" rfl rfl
    ⟨member1, by simp [initial_db], rfl, rfl⟩ rfl

/-- Characterization of every `success = false` return: the state comes
back untouched and the errors list is exactly the singleton produced by
the first failing hard precondition, in the checked order. -/
theorem startCall_failure_eval (db : DB) (supply : Nat → String)
    (input : CallInput) (actor : String) (res : StartCallResult) (db' : DB)
    (h : simulate_start_call db supply input actor = .ok (res, db'))
    (hf : res.success = false) :
    db' = db ∧ ∃ e, first_failing_error db input actor = some e
      ∧ res.errors = [e] := by
  by_cases ha : actor = ""
  · subst ha
    simp only [simulate_start_call, if_pos, Except.ok.injEq, Prod.mk.injEq] at h
    refine ⟨h.2.symm, ⟨("AUTH_REQUIRED", "Unauthenticated"), ?_, ?_⟩⟩
    · simp [first_failing_error]
    · rw [← h.1]
  · cases hoid : input.organization_id with
    | none => simp [simulate_start_call, ha, hoid] at h
    | some oid =>
      cases horg : lookup_dict db.organizations oid with
      | none =>
        simp only [simulate_start_call, if_neg ha, hoid, horg,
          Except.ok.injEq, Prod.mk.injEq] at h
        refine ⟨h.2.symm,
          ⟨("CALL_START_ORG_NOT_FOUND", "Organization not found"), ?_, ?_⟩⟩
        · simp [first_failing_error, ha, hoid, horg]
        · rw [← h.1]
      | some org =>
        cases hmem : db.org_members.find?
            (fun m => m.organization_id == org.id && m.user_id == actor) with
        | none =>
          simp only [simulate_start_call, if_neg ha, hoid, horg, hmem,
            Except.ok.injEq, Prod.mk.injEq] at h
          refine ⟨h.2.symm,
            ⟨("AUTH_ORG_MISMATCH", "Actor not authorized for organization"), ?_, ?_⟩⟩
          · simp [first_failing_error, ha, hoid, horg, hmem]
          · rw [← h.1]
        | some m =>
          cases hsys : system_lookup db.systems "system-cpid" with
          | none =>
            simp only [simulate_start_call, if_neg ha, hoid, horg, hmem, hsys,
              Except.ok.injEq, Prod.mk.injEq] at h
            refine ⟨h.2.symm,
              ⟨("CALL_START_SYS_MISSING", "Control system not registered"), ?_, ?_⟩⟩
            · simp [first_failing_error, ha, hoid, horg, hmem, hsys]
            · rw [← h.1]
          | some cpid =>
            simp only [simulate_start_call, if_neg ha, hoid, horg, hmem, hsys,
              Except.ok.injEq] at h
            have h1 : (start_call_effects db supply input actor org cpid).1.success
                = res.success := by rw [h]
            rw [effects_success] at h1
            rw [hf] at h1
            cases h1

/-- C10: whenever `simulate_start_call` returns `success = false`, none
of the mock tables has been modified — every hard-failure return happens
before any table mutation, so failure is atomic. -/
theorem C10_atomic_failure (db : DB) (supply : Nat → String)
    (input : CallInput) (actor : String) (res : StartCallResult) (db' : DB)
    (h : simulate_start_call db supply input actor = .ok (res, db'))
    (hf : res.success = false) :
    db' = db :=
  (startCall_failure_eval db supply input actor res db' h hf).1

/-- Witness for C10: the unknown organization `org-2` fails and leaves
the seeded state untouched. -/
theorem C10_atomic_failure_witness :
    (simulate_start_call initial_db supply0 ⟨some "org-2", ⟨false, false⟩⟩
        "user-1"
      = .ok ({ success := false, call_id := none,
               errors := [("CALL_START_ORG_NOT_FOUND", "Organization not found")] },
             initial_db))
    ∧ initial_db = initial_db :=
  ⟨rfl, C10_atomic_failure initial_db supply0 ⟨some "org-2", ⟨false, false⟩⟩
    "user-1"
    { success := false, call_id := none,
      errors := [("CALL_START_ORG_NOT_FOUND", "Organization not found")] }
    initial_db rfl rfl⟩

/-- C4: the four hard preconditions are checked in the stated order with
a short-circuit return, so every `success = false` result carries exactly
one `(code, message)` pair: that of the first failing precondition, as
computed by the spec-order function `first_failing_error`. -/
theorem C4_first_failure (db : DB) (supply : Nat → String)
    (input : CallInput) (actor : String) (res : StartCallResult) (db' : DB)
    (h : simulate_start_call db supply input actor = .ok (res, db'))
    (hf : res.success = false) :
    ∃ e, first_failing_error db input actor = some e ∧ res.errors = [e] :=
  (startCall_failure_eval db supply input actor res db' h hf).2

/-- Witness for C4: the non-member `user-2` fails the third check. -/
theorem C4_first_failure_witness :
    ∃ e, first_failing_error initial_db ⟨some "org-1", ⟨false, false⟩⟩ "user-2"
        = some e
      ∧ ({ success := false, call_id := none,
           errors := [("AUTH_ORG_MISMATCH", "Actor not authorized for organization")] }
          : StartCallResult).errors = [e] :=
  C4_first_failure initial_db supply0 ⟨some "org-1", ⟨false, false⟩⟩ "user-2"
    { success := false, call_id := none,
      errors := [("AUTH_ORG_MISMATCH", "Actor not authorized for organization")] }
    initial_db rfl rfl

/-- C3 counterexample: an input dictionary without the
`organization_id` key makes the source raise `KeyError` at the
`organization_id` subscript (a raised signal, not a returned error pair),
so the claim fails as stated over every input dictionary. -/
theorem C3_counterexample :
    simulate_start_call initial_db supply0 ⟨none, ⟨false, false⟩⟩ "user-1"
      = .error "KeyError: organization_id" := rfl

/-- C3 amended: for every input dictionary that contains the
`organization_id` key (and any actor and state), `simulate_start_call`
signals no exception — it returns normally, and any failure is
represented as `(code, message)` pairs in the errors list. -/
theorem C3_no_exception_with_key (db : DB) (supply : Nat → String)
    (input : CallInput) (actor : String)
    (h : input.organization_id.isSome = true) :
    ∃ res db', simulate_start_call db supply input actor = .ok (res, db')
      ∧ (res.success = false → res.errors ≠ []) := by
  obtain ⟨oid, hoid⟩ := Option.isSome_iff_exists.mp h
  by_cases ha : actor = ""
  · subst ha
    refine ⟨_, _, rfl, ?_⟩
    intro _
    simp [simulate_start_call]
  · cases horg : lookup_dict db.organizations oid with
    | none =>
      refine ⟨{ success := false, call_id := none,
                errors := [("CALL_START_ORG_NOT_FOUND", "Organization not found")] },
        db, ?_, ?_⟩
      · simp [simulate_start_call, ha, hoid, horg]
      · intro _; simp
    | some org =>
      cases hmem : db.org_members.find?
          (fun m => m.organization_id == org.id && m.user_id == actor) with
      | none =>
        refine ⟨{ success := false, call_id := none,
                  errors := [("AUTH_ORG_MISMATCH", "Actor not authorized for organization")] },
          db, ?_, ?_⟩
        · simp [simulate_start_call, ha, hoid, horg, hmem]
        · intro _; simp
      | some m =>
        cases hsys : system_lookup db.systems "system-cpid" with
        | none =>
          refine ⟨{ success := false, call_id := none,
                    errors := [("CALL_START_SYS_MISSING", "Control system not registered")] },
            db, ?_, ?_⟩
          · simp [simulate_start_call, ha, hoid, horg, hmem, hsys]
          · intro _; simp
        | some cpid =>
          refine ⟨(start_call_effects db supply input actor org cpid).1,
            (start_call_effects db supply input actor org cpid).2, ?_, ?_⟩
          · rw [startCall_ok_eval db supply input actor org cpid oid ha hoid
              horg (by rw [hmem]; rfl) hsys]
          · intro hfalse
            rw [effects_success] at hfalse
            cases hfalse

/-- Witness for C3 amended at a concrete input that carries the key. -/
theorem C3_no_exception_with_key_witness :
    (some "org-1" : Option String).isSome = true
    ∧ ∃ res db',
        simulate_start_call initial_db supply0 ⟨some "org-1", ⟨false, false⟩⟩
          "user-9" = .ok (res, db')
        ∧ (res.success = false → res.errors ≠ []) :=
  ⟨rfl, C3_no_exception_with_key initial_db supply0
    ⟨some "org-1", ⟨false, false⟩⟩ "user-9" rfl⟩

/-- C2 counterexample: running the seeded module with
`modulations = {transcribe: true}` creates one AiRun row (id `3` under
the concrete supply), yet the audit log gains a single entry — the
`create` entry of the call — and no entry at all references the AiRun (zero entries
carry its id or the `ai_runs` resource type).  So the state-changing
action of creating an AiRun is paired with zero AuditLog entries, not
exactly one, refuting the claim as stated. -/
theorem C2_counterexample :
    transcribe_run_state.ai_runs.map (fun r => r.id) = ["3"]
    ∧ transcribe_run_state.ai_runs.map (fun r =>
        transcribe_run_state.audit_logs.countP
          (fun a => a.resource_id == r.id)) = [0]
    ∧ transcribe_run_state.audit_logs.countP
        (fun a => a.resource_type == "ai_runs") = 0
    ∧ transcribe_run_state.audit_logs.length = 1 := by decide

/-- C2 amended: in every run of `simulate_start_call` that passes the
hard preconditions, the only state-changing action paired with an
AuditLog entry is the creation of the Call: exactly one appended entry
has action `create`, every appended entry targets the `calls` resource
with the id of the new call (so AiRun creation and the pending-to-in-progress
transition get no entry of their own), and the intent entry is an
additional appended entry exactly when recording was requested. -/
theorem C2_create_audit_pairing (st : DB) (supply : Nat → String)
    (input : CallInput) (actor : String) (org : Organization)
    (cpid oid : String)
    (ha : ¬ actor = "")
    (hoid : input.organization_id = some oid)
    (horg : lookup_dict st.organizations oid = some org)
    (hmem : (st.org_members.find?
      (fun m => m.organization_id == org.id && m.user_id == actor)).isSome)
    (hsys : system_lookup st.systems "system-cpid" = some cpid) :
    ∃ res db' c appended,
      simulate_start_call st supply input actor = .ok (res, db')
      ∧ db'.calls = st.calls ++ [c]
      ∧ db'.audit_logs = st.audit_logs ++ appended
      ∧ appended.countP (fun a => a.action == "create") = 1
      ∧ (∀ a ∈ appended, a.resource_type = "calls" ∧ a.resource_id = c.id)
      ∧ appended.countP (fun a => a.action == "intent:recording_requested")
          = (if input.modulations.record then 1 else 0) := by
  have h := startCall_ok_eval st supply input actor org cpid oid ha hoid
    horg hmem hsys
  obtain ⟨oiv, mods⟩ := input
  obtain ⟨rec, tr⟩ := mods
  cases rec with
  | false =>
    cases tr with
    | false =>
      rw [effects_eval_plain] at h
      refine ⟨_, _, _, [create_audit supply actor org cpid ⟨false, false⟩ 3],
        h, rfl, rfl, ?_, ?_, ?_⟩
      · simp [create_audit]
      · intro a haa
        rw [List.mem_singleton] at haa
        subst haa
        exact ⟨rfl, rfl⟩
      · simp [create_audit]
    | true =>
      cases hai : system_lookup st.systems "system-ai" with
      | none =>
        rw [effects_eval_transcribe_noai st supply oiv actor org cpid hai] at h
        refine ⟨_, _, _, [create_audit supply actor org cpid ⟨false, true⟩ 3],
          h, rfl, rfl, ?_, ?_, ?_⟩
        · simp [create_audit]
        · intro a haa
          rw [List.mem_singleton] at haa
          subst haa
          exact ⟨rfl, rfl⟩
        · simp [create_audit]
      | some aiid =>
        rw [effects_eval_transcribe st supply oiv actor org cpid aiid hai] at h
        refine ⟨_, _, _, [create_audit supply actor org cpid ⟨false, true⟩ 4],
          h, rfl, rfl, ?_, ?_, ?_⟩
        · simp [create_audit]
        · intro a haa
          rw [List.mem_singleton] at haa
          subst haa
          exact ⟨rfl, rfl⟩
        · simp [create_audit]
  | true =>
    cases tr with
    | false =>
      rw [effects_eval_record] at h
      refine ⟨_, _, _, [intent_audit supply actor org cpid 3,
        create_audit supply actor org cpid ⟨true, false⟩ 6],
        h, rfl, rfl, ?_, ?_, ?_⟩
      · simp [create_audit, intent_audit]
      · intro a haa
        rcases List.mem_cons.mp haa with h1 | h1
        · subst h1; exact ⟨rfl, rfl⟩
        · rw [List.mem_singleton] at h1
          subst h1
          exact ⟨rfl, rfl⟩
      · simp [create_audit, intent_audit]
    | true =>
      cases hai : system_lookup st.systems "system-ai" with
      | none =>
        rw [effects_eval_record_transcribe_noai st supply oiv actor org cpid hai] at h
        refine ⟨_, _, _, [intent_audit supply actor org cpid 3,
          create_audit supply actor org cpid ⟨true, true⟩ 6],
          h, rfl, rfl, ?_, ?_, ?_⟩
        · simp [create_audit, intent_audit]
        · intro a haa
          rcases List.mem_cons.mp haa with h1 | h1
          · subst h1; exact ⟨rfl, rfl⟩
          · rw [List.mem_singleton] at h1
            subst h1
            exact ⟨rfl, rfl⟩
        · simp [create_audit, intent_audit]
      | some aiid =>
        rw [effects_eval_record_transcribe st supply oiv actor org cpid aiid hai] at h
        refine ⟨_, _, _, [intent_audit supply actor org cpid 4,
          create_audit supply actor org cpid ⟨true, true⟩ 7],
          h, rfl, rfl, ?_, ?_, ?_⟩
        · simp [create_audit, intent_audit]
        · intro a haa
          rcases List.mem_cons.mp haa with h1 | h1
          · subst h1; exact ⟨rfl, rfl⟩
          · rw [List.mem_singleton] at h1
            subst h1
            exact ⟨rfl, rfl⟩
        · simp [create_audit, intent_audit]

/-- Witness for the amended C2 at the seeded tables, with both
modulations requested. -/
theorem C2_create_audit_pairing_witness :
    ∃ res db' c appended,
      simulate_start_call initial_db supply0 ⟨some "org-1", ⟨true, true⟩⟩
        "user-1" = .ok (res, db')
      ∧ db'.calls = initial_db.calls ++ [c]
      ∧ db'.audit_logs = initial_db.audit_logs ++ appended
      ∧ appended.countP (fun a => a.action == "create") = 1
      ∧ (∀ a ∈ appended, a.resource_type = "calls" ∧ a.resource_id = c.id)
      ∧ appended.countP (fun a => a.action == "intent:recording_requested")
          = (if (⟨some "org-1", ⟨true, true⟩⟩ : CallInput).modulations.record
             then 1 else 0) :=
  C2_create_audit_pairing initial_db supply0 ⟨some "org-1", ⟨true, true⟩⟩
    "user-1" org1 "sys-cpid" "org-1" (by decide) rfl rfl (by decide) rfl

/-- Membership in a filtered column list implies membership in the schema
columns it was filtered against. -/
theorem mem_filter_cols (c : String) (cols schema : List String)
    (h : c ∈ filter_cols cols schema) : c ∈ schema := by
  have h2 := List.mem_filter.mp h
  exact List.elem_iff.mp h2.2

/-- One build-loop iteration preserves the only-schema-columns property
of every accumulated matrix entry. -/
theorem build_step_ok (tables : List (String × List String))
    (acc : List (String × PermEntry)) (p : String × PermSpec)
    (hacc : ∀ q ∈ acc, entry_ok tables q) :
    ∀ q ∈ build_step tables acc p, entry_ok tables q := by
  intro q hq
  unfold build_step at hq
  cases hlk : lookup_dict tables p.1 with
  | none => rw [hlk] at hq; exact hacc q hq
  | some cols =>
    rw [hlk] at hq
    rcases List.mem_append.mp hq with h | h
    · exact hacc q h
    · rw [List.mem_singleton] at h
      subst h
      intro c hc
      simp only [hlk, Option.getD_some]
      rcases hc with h | h | h | h <;> exact mem_filter_cols c _ cols h

/-- Every entry the first loop emits draws its columns from the schema. -/
theorem build_updated_ok (tool : List (String × PermSpec))
    (tables : List (String × List String)) :
    ∀ q ∈ build_updated tool tables, entry_ok tables q := by
  have main : ∀ (t : List (String × PermSpec)) (acc : List (String × PermEntry)),
      (∀ q ∈ acc, entry_ok tables q) →
      ∀ q ∈ t.foldl (build_step tables) acc, entry_ok tables q := by
    intro t
    induction t with
    | nil => intro acc hacc; simpa using hacc
    | cons hd tl ih =>
      intro acc hacc
      rw [List.foldl_cons]
      exact ih _ (build_step_ok tables acc hd hacc)
  exact main tool [] (by simp)

/-- One required-tables iteration preserves the property: the entry it
may add copies its `GET` list verbatim from the schema. -/
theorem required_step_ok (tables : List (String × List String))
    (acc : List (String × PermEntry)) (req : String)
    (hacc : ∀ q ∈ acc, entry_ok tables q) :
    ∀ q ∈ required_step tables acc req, entry_ok tables q := by
  intro q hq
  unfold required_step at hq
  by_cases hin : (lookup_dict acc req).isSome
  · rw [if_pos hin] at hq; exact hacc q hq
  · rw [if_neg hin] at hq
    cases hlk : lookup_dict tables req with
    | none => rw [hlk] at hq; exact hacc q hq
    | some cols =>
      rw [hlk] at hq
      rcases List.mem_append.mp hq with h | h
      · exact hacc q h
      · rw [List.mem_singleton] at h
        subst h
        intro c hc
        simp only [hlk, Option.getD_some]
        rcases hc with h | h | h | h
        · exact h
        · simp at h
        · simp at h
        · simp at h

/-- The full matrix — first loop plus required-tables step — only holds
schema columns. -/
theorem ensure_required_ok (updated : List (String × PermEntry))
    (tables : List (String × List String))
    (hu : ∀ q ∈ updated, entry_ok tables q) :
    ∀ q ∈ ensure_required updated tables, entry_ok tables q := by
  unfold ensure_required
  simp only [List.foldl_cons, List.foldl_nil]
  exact required_step_ok tables _ "ai_runs"
    (required_step_ok tables _ "calls" hu)

/-- An op whose columns all appear in the schema contributes no
validation message. -/
theorem op_errors_nil (tbl op : String) (cols tcols : List String)
    (h : ∀ c ∈ cols, c ∈ tcols) : op_errors tbl op cols tcols = [] := by
  unfold op_errors
  have hnil : cols.filter (fun c => !(tcols.contains c)) = [] :=
    List.filter_eq_nil_iff.mpr (fun c hc => by simp [h c hc])
  rw [hnil]
  rfl

/-- A matrix entry that only holds schema columns contributes nothing to
the validation loop. -/
theorem validate_step_nil (tables : List (String × List String))
    (acc : List String) (p : String × PermEntry)
    (hp : entry_ok tables p) : validate_step tables acc p = acc := by
  simp only [validate_step]
  rw [op_errors_nil _ _ _ _ (fun c hc => hp c (Or.inl hc)),
      op_errors_nil _ _ _ _ (fun c hc => hp c (Or.inr (Or.inl hc))),
      op_errors_nil _ _ _ _ (fun c hc => hp c (Or.inr (Or.inr (Or.inl hc)))),
      op_errors_nil _ _ _ _ (fun c hc => hp c (Or.inr (Or.inr (Or.inr hc))))]
  simp

/-- The validation fold leaves its accumulator unchanged over any list of
entries that only hold schema columns. -/
theorem validation_foldl_fixed (tables : List (String × List String))
    (updated : List (String × PermEntry))
    (hu : ∀ q ∈ updated, entry_ok tables q) :
    ∀ acc, updated.foldl (validate_step tables) acc = acc := by
  induction updated with
  | nil => intro acc; rfl
  | cons hd tl ih =>
    intro acc
    rw [List.foldl_cons, validate_step_nil tables acc hd (hu hd (by simp))]
    exact ih (fun q hq => hu q (List.mem_cons_of_mem hd hq)) acc

/-- C9: for every permission-table input and every parsed schema (the
regex parse of any schema text yields some tables dict, over which this
theorem quantifies), the emitted matrix holds, under each listed table and its
GET/POST/PUT/DELETE lists, only columns present in that table in the
schema — stale columns are filtered out — and consequently the emitted
validation errors list is empty. -/
theorem C9_matrix_filtered (tool : List (String × PermSpec))
    (tables : List (String × List String)) :
    (∀ q ∈ (build_permission_matrix tool tables).1, entry_ok tables q)
    ∧ (build_permission_matrix tool tables).2 = [] := by
  have h1 : ∀ q ∈ ensure_required (build_updated tool tables) tables,
      entry_ok tables q :=
    ensure_required_ok _ tables (build_updated_ok tool tables)
  exact ⟨h1, validation_foldl_fixed tables _ h1 []⟩

/-- Witness for C9 at a concrete permission table (with the stale column
`email` and the unknown table `ghost`) and a concrete schema. -/
theorem C9_matrix_filtered_witness :
    (∀ q ∈ (build_permission_matrix tool0 tables0).1, entry_ok tables0 q)
    ∧ (build_permission_matrix tool0 tables0).2 = [] :=
  C9_matrix_filtered tool0 tables0

end CallMonitor
